import Mathlib

/-!
Shallow embedding of the Risky Business MCP server core (main.py): the
CISA KEV catalog cache with its search engine, and the NIST NVD CVE
record normalizer.  JSON objects become structures whose optional keys
are Option fields; Python dict.get with a default becomes Option.getD.
-/

namespace Risky

/-! ### Python string primitives -/

/-- Whether the first list of characters is an initial segment of the second. -/
def leadsList : List Char → List Char → Bool
  | [], _ => true
  | _ :: _, [] => false
  | a :: as, b :: bs => a == b && leadsList as bs

/-- Whether the needle occurs contiguously inside the hay (Python `in`). -/
def occursInList (needle : List Char) : List Char → Bool
  | [] => leadsList needle []
  | b :: bs => leadsList needle (b :: bs) || occursInList needle bs

/-- Python s.lower(). -/
def pyLower (s : String) : String := ⟨s.data.map Char.toLower⟩

/-- Python s.upper(). -/
def pyUpper (s : String) : String := ⟨s.data.map Char.toUpper⟩

/-- Python substring containment: needle in hay. -/
def pyIn (needle hay : String) : Bool := occursInList needle.data hay.data

/-- Python s.strip(): drop leading and trailing whitespace. -/
def pyStrip (s : String) : String :=
  ⟨((s.data.dropWhile Char.isWhitespace).reverse.dropWhile Char.isWhitespace).reverse⟩

/-- Python s.startswith(p). -/
def pyStartsWith (s p : String) : Bool := leadsList p.data s.data

/-- Code-point lexicographic strictly-less on character lists. -/
def strLtAux : List Char → List Char → Bool
  | _, [] => false
  | [], _ :: _ => true
  | a :: as, b :: bs =>
    if a.toNat < b.toNat then true
    else if b.toNat < a.toNat then false
    else strLtAux as bs

/-- Python string <. -/
def pyStrLt (a b : String) : Bool := strLtAux a.data b.data

/-- Python " ".join(xs). -/
def joinSpace : List String → String
  | [] => ""
  | [x] => x
  | x :: y :: xs => x ++ " " ++ joinSpace (y :: xs)

/-! ### KEV catalog data model (main.py lines 26, 683-780) -/

/-- One row of the CISA KEV feed, as read by search_kev via vuln.get. -/
structure KEVEntry where
  cveID : Option String
  vendorProject : Option String
  product : Option String
  vulnerabilityName : Option String
  dateAdded : String
  shortDescription : Option String
  requiredAction : Option String
  dueDate : Option String
  knownRansomwareCampaignUse : Option String
  notes : Option String
deriving DecidableEq

/-- The cached KEV document: vulnerabilities plus the informational count. -/
structure KEVCatalog where
  vulnerabilities : List KEVEntry
  count : Nat
deriving DecidableEq

/-- The degraded catalog produced when the download fails. -/
def emptyKev : KEVCatalog := ⟨[], 0⟩

/-- The field selectors accepted by search_kev (its valid_fields list). -/
inductive SearchField where
  | all
  | cve_id
  | vendor
  | product
  | vulnerability_name
  | date_added
deriving DecidableEq

/-- The space-joined searchable text built for field "all" (lines 726-733). -/
def searchableText (v : KEVEntry) : String :=
  joinSpace [v.cveID.getD "", v.vendorProject.getD "", v.product.getD "",
    v.vulnerabilityName.getD "", v.shortDescription.getD "", v.notes.getD ""]

/-- The per-entry match test of search_kev (lines 722-745). -/
def entryMatches (query : String) (f : SearchField) (v : KEVEntry) : Bool :=
  let query_lower := pyLower query
  match f with
  | .all => pyIn query_lower (pyLower (searchableText v))
  | .cve_id =>
    let c := pyLower (v.cveID.getD "")
    pyIn query_lower c || pyIn c query_lower
  | .vendor => pyIn query_lower (pyLower (v.vendorProject.getD ""))
  | .product => pyIn query_lower (pyLower (v.product.getD ""))
  | .vulnerability_name => pyIn query_lower (pyLower (v.vulnerabilityName.getD ""))
  | .date_added => pyIn query v.dateAdded

/-- The projection appended to results for a matching entry (lines 748-759). -/
structure SearchResult where
  cve_id : Option String
  vendor : Option String
  product : Option String
  vulnerability_name : Option String
  date_added : String
  short_description : Option String
  required_action : Option String
  due_date : Option String
  known_ransomware_use : Option String
  notes : Option String
deriving DecidableEq

def projectEntry (v : KEVEntry) : SearchResult :=
  ⟨v.cveID, v.vendorProject, v.product, v.vulnerabilityName, v.dateAdded,
    v.shortDescription, v.requiredAction, v.dueDate, v.knownRansomwareCampaignUse, v.notes⟩

/-- The collection loop of search_kev: append each match, break as soon as
the accumulated results reach max_results (lines 721-762). -/
def collectResults (query : String) (f : SearchField) (maxResults : Nat) :
    List KEVEntry → List SearchResult → List SearchResult
  | [], acc => acc
  | v :: rest, acc =>
    if entryMatches query f v then
      let acc2 := acc ++ [projectEntry v]
      if maxResults ≤ acc2.length then acc2
      else collectResults query f maxResults rest acc2
    else collectResults query f maxResults rest acc

/-- Stable insertion of a result into a list sorted by date_added descending:
the new element passes over strictly greater keys and lands before the first
key less than or equal to its own. -/
def insertResult (x : SearchResult) : List SearchResult → List SearchResult
  | [] => [x]
  | y :: ys =>
    if pyStrLt x.date_added y.date_added then y :: insertResult x ys
    else x :: y :: ys

/-- Python results.sort(key=date_added, reverse=True): a stable sort by
date_added in descending lexicographic order (line 765). -/
def sortByDateDesc : List SearchResult → List SearchResult
  | [] => []
  | x :: xs => insertResult x (sortByDateDesc xs)

/-- The response envelope returned by search_kev (lines 767-776). -/
structure SearchResponse where
  status : String
  query : String
  field : SearchField
  total_results : Nat
  results : List SearchResult
  message : Option String
deriving DecidableEq

/-- search_kev on an already-loaded catalog, for a valid field selector
(lines 700-780): clamp max_results to 50, scan in stored order with early
break, then sort the collected results by date_added descending. -/
def search_kev (query : String) (f : SearchField) (max_results : Nat)
    (cat : KEVCatalog) : SearchResponse :=
  let maxR := if 50 < max_results then 50 else max_results
  let collected := collectResults query f maxR cat.vulnerabilities []
  let sorted := sortByDateDesc collected
  { status := "success"
    query := query
    field := f
    total_results := sorted.length
    results := sorted
    message :=
      if sorted.length = 0 then
        some ("No vulnerabilities found matching " ++ query ++ " in KEV catalog")
      else none }

/-! ### Catalog download and degraded cache (main.py lines 28-49) -/

/-- The outcome of the single GET against the KEV feed: an HTTP response
with a status and parsed body, or a transport-level exception. -/
inductive HttpFetch where
  | response (status : Nat) (body : KEVCatalog)
  | failure
deriving DecidableEq

/-- download_kev_data (lines 28-42): return the body on HTTP 200; on any
other status, or on a raised transport error, log and return the empty
catalog instead of raising. -/
def download_kev_data : HttpFetch → KEVCatalog
  | .response status body => if status = 200 then body else emptyKev
  | .failure => emptyKev

/-! ### Lazy-initialization interleaving model (lines 44-49, 701-702)

Each caller of search_kev (or of the catalog resource) runs, under
cooperative scheduling, the code
  if kev_data_cache is None: kev_data_cache = await download_kev_data().
The await splits it into two atomic segments: the None check that issues
the fetch, and the resumption that stores the result. -/

inductive CallerPhase where
  | ready
  | fetching
  | done
deriving DecidableEq

structure ServerState where
  cache : Option KEVCatalog
  fetchesIssued : Nat
  callers : List CallerPhase
deriving DecidableEq

/-- Advance caller i by one atomic segment. In phase ready it runs the
kev_data_cache-is-None check: if the cache is unset it starts its own
download (a new upstream fetch) and suspends at the await; otherwise it is
done. In phase fetching it resumes from the await and stores the fetched
catalog. -/
def stepCaller (fetched : KEVCatalog) (s : ServerState) (i : Nat) : ServerState :=
  match s.callers.get? i with
  | none => s
  | some .ready =>
    match s.cache with
    | none => { s with callers := s.callers.set i .fetching,
                       fetchesIssued := s.fetchesIssued + 1 }
    | some _ => { s with callers := s.callers.set i .done }
  | some .fetching => { s with cache := some fetched, callers := s.callers.set i .done }
  | some .done => s

/-- Run a schedule: a list of caller indices, each taking one segment. -/
def runSchedule (fetched : KEVCatalog) : List Nat → ServerState → ServerState
  | [], s => s
  | i :: rest, s => runSchedule fetched rest (stepCaller fetched s i)

/-- The initial state with n concurrent callers, before any fetch. -/
def initState (n : Nat) : ServerState := ⟨none, 0, List.replicate n .ready⟩

/-! ### NIST NVD raw record model (main.py lines 277-367) -/

/-- The nested cvssData block of one scoring entry. -/
structure CvssData where
  baseScore : Option Rat
  baseSeverity : Option String
  vectorString : Option String
deriving DecidableEq

/-- One entry of a cvssMetric sequence.  For CVSS v2 the feed stores the
severity at this level, next to cvssData, not inside it. -/
structure CvssMetricEntry where
  cvssData : Option CvssData
  baseSeverity : Option String
deriving DecidableEq

/-- The metrics object, keyed by scoring scheme.  A key that is absent is
none; a key present with an empty sequence is some []. -/
structure Metrics where
  cvssMetricV31 : Option (List CvssMetricEntry)
  cvssMetricV30 : Option (List CvssMetricEntry)
  cvssMetricV2 : Option (List CvssMetricEntry)
deriving DecidableEq

/-- A language-tagged description entry (used by weaknesses and by the
top-level descriptions sequence). -/
structure LangValue where
  lang : Option String
  value : Option String
deriving DecidableEq

/-- One weakness block with its description entries. -/
structure Weakness where
  description : Option (List LangValue)
deriving DecidableEq

/-- One cpeMatch entry inside a configuration node. -/
structure CpeMatch where
  vulnerable : Option Bool
  criteria : Option String
  versionStartIncluding : Option String
  versionEndExcluding : Option String
  versionEndIncluding : Option String
deriving DecidableEq

/-- One node of a configuration. -/
structure ConfigNode where
  cpeMatch : Option (List CpeMatch)
deriving DecidableEq

/-- One configuration block. -/
structure Configuration where
  nodes : Option (List ConfigNode)
deriving DecidableEq

/-- One reference entry of the raw record. -/
structure Reference where
  url : Option String
  source : Option String
  tags : Option (List String)
deriving DecidableEq

/-- The raw cve object extracted from the NVD response (cve_item). -/
structure RawCVE where
  id : Option String
  published : Option String
  lastModified : Option String
  metrics : Option Metrics
  weaknesses : Option (List Weakness)
  descriptions : Option (List LangValue)
  configurations : Option (List Configuration)
  references : Option (List Reference)
  sourceIdentifier : Option String
  vulnStatus : Option String
deriving DecidableEq

/-! ### Normalizer (main.py lines 277-386) -/

/-- One normalized scoring block {score, severity, vector}. -/
structure CvssOut where
  score : Option Rat
  severity : Option String
  vector : Option String
deriving DecidableEq

/-- The empty cvssData used as the default of cvss.get("cvssData", {}). -/
def emptyCvssData : CvssData := ⟨none, none, none⟩

/-- v3.1 / v3.0 extraction (lines 284-299): first entry of the sequence,
score, severity and vector all read from the nested cvssData block. -/
def extractV3x : Option (List CvssMetricEntry) → Option CvssOut
  | some (e :: _) =>
    let d := e.cvssData.getD emptyCvssData
    some ⟨d.baseScore, d.baseSeverity, d.vectorString⟩
  | _ => none

/-- v2 extraction (lines 302-308): first entry of the sequence; score and
vector from the nested cvssData block, but severity from the entry level. -/
def extractV2 : Option (List CvssMetricEntry) → Option CvssOut
  | some (e :: _) =>
    let d := e.cvssData.getD emptyCvssData
    some ⟨d.baseScore, e.baseSeverity, d.vectorString⟩
  | _ => none

/-- CWE extraction (lines 311-316): for every weakness, every description
entry whose lang is "en" contributes its value, in order. -/
def extractCwe (ws : List Weakness) : List (Option String) :=
  ws.flatMap fun w =>
    ((w.description.getD []).filter fun d => d.lang == some "en").map fun d => d.value

/-- Description extraction (lines 319-324): value of the first entry whose
lang is "en", defaulting to the empty string. -/
def extractDescription (ds : List LangValue) : String :=
  match ds.find? (fun d => d.lang == some "en") with
  | some d => d.value.getD ""
  | none => ""

/-- One projected affected-product descriptor; absent sub-fields stay none,
matching the removal of None values from the emitted dict. -/
structure CpeOut where
  cpe23Uri : Option String
  versionStartIncluding : Option String
  versionEndExcluding : Option String
  versionEndIncluding : Option String
deriving DecidableEq

/-- CPE extraction (lines 327-343): walk configurations, nodes, cpeMatch;
keep only entries whose vulnerable flag is truthy; project each. -/
def extractCpes (configs : List Configuration) : List CpeOut :=
  configs.flatMap fun c =>
    (c.nodes.getD []).flatMap fun n =>
      ((n.cpeMatch.getD []).filter fun m => m.vulnerable.getD false).map fun m =>
        ⟨m.criteria, m.versionStartIncluding, m.versionEndExcluding, m.versionEndIncluding⟩

/-- One projected reference {url, source, tags}. -/
structure RefOut where
  url : Option String
  source : Option String
  tags : List String
deriving DecidableEq

/-- Reference projection (lines 347-352): tags default to the empty list. -/
def projectReference (r : Reference) : RefOut := ⟨r.url, r.source, r.tags.getD []⟩

def extractRefs (rs : List Reference) : List RefOut := rs.map projectReference

/-- The metrics object defaulted by cve_item.get("metrics", {}). -/
def emptyMetrics : Metrics := ⟨none, none, none⟩

/-- The normalized summary built for a found record (lines 355-382).  The
primary fields are present only when some scheme was available; their inner
values may still be none when the raw record omitted them. -/
structure NormalizedCVE where
  status : String
  cve_id : Option String
  published : Option String
  last_modified : Option String
  description : String
  cvss_v31 : Option CvssOut
  cvss_v30 : Option CvssOut
  cvss_v2 : Option CvssOut
  cwe : List (Option String)
  cpe_configurations : List CpeOut
  references : List RefOut
  source_identifier : Option String
  vuln_status : Option String
  primary_severity : Option (Option String)
  primary_score : Option (Option Rat)
deriving DecidableEq

/-- The normalization core of get_cve_from_nist (lines 277-382): pure
transformation of one raw cve object into the flat result. -/
def normalizeCVE (r : RawCVE) : NormalizedCVE :=
  let m := r.metrics.getD emptyMetrics
  let v31 := extractV3x m.cvssMetricV31
  let v30 := extractV3x m.cvssMetricV30
  let v2 := extractV2 m.cvssMetricV2
  let primary :=
    match v31 with
    | some o => some o
    | none =>
      match v30 with
      | some o => some o
      | none => v2
  { status := "found"
    cve_id := r.id
    published := r.published
    last_modified := r.lastModified
    description := extractDescription (r.descriptions.getD [])
    cvss_v31 := v31
    cvss_v30 := v30
    cvss_v2 := v2
    cwe := extractCwe (r.weaknesses.getD [])
    cpe_configurations := (extractCpes (r.configurations.getD [])).take 10
    references := (extractRefs (r.references.getD [])).take 5
    source_identifier := r.sourceIdentifier
    vuln_status := r.vulnStatus
    primary_severity := primary.map fun o => o.severity
    primary_score := primary.map fun o => o.score }

/-! ### CVE identifier normalization and validation (main.py lines 238-249) -/

/-- Lines 238-241: uppercase, strip, prepend CVE- when absent. -/
def normalizeCveId (s : String) : String :=
  let t := pyStrip (pyUpper s)
  if pyStartsWith t "CVE-" then t else "CVE-" ++ t

/-- The anchored pattern CVE, dash, 4 digits, dash, 4-or-more digits
(line 245). -/
def validCveId (s : String) : Bool :=
  match s.data with
  | 'C' :: 'V' :: 'E' :: '-' :: rest =>
    let year := rest.take 4
    let rest2 := rest.drop 4
    match rest2 with
    | '-' :: num =>
      year.length == 4 && year.all Char.isDigit &&
        decide (4 ≤ num.length) && num.all Char.isDigit
    | _ => false
  | _ => false

/-- The caller-facing gate run before any upstream lookup: a structured
error envelope for an invalid identifier, otherwise proceed to the lookup
with the canonical identifier (lines 238-251). -/
inductive CveGate where
  | error (message : String)
  | lookup (cveId : String)
deriving DecidableEq

def cveIdGate (s : String) : CveGate :=
  let c := normalizeCveId s
  if validCveId c then .lookup c
  else .error ("Invalid CVE format: " ++ c ++ ". Expected format: CVE-YYYY-NNNN")

/-! ### Helper lemmas: substring containment -/

theorem leadsList_iff (n : List Char) : ∀ (h : List Char),
    leadsList n h = true ↔ ∃ t, n ++ t = h := by
  induction n with
  | nil => intro h; simp [leadsList]
  | cons a as ih =>
    intro h
    cases h with
    | nil => simp [leadsList]
    | cons b bs =>
      simp only [leadsList, Bool.and_eq_true, beq_iff_eq, ih, List.cons_append,
        List.cons.injEq]
      constructor
      · rintro ⟨rfl, t, ht⟩
        exact ⟨t, rfl, ht⟩
      · rintro ⟨t, rfl, ht⟩
        exact ⟨rfl, t, ht⟩

theorem occursInList_iff (n : List Char) (h : List Char) :
    occursInList n h = true ↔ ∃ s t, s ++ n ++ t = h := by
  induction h with
  | nil =>
    simp only [occursInList, leadsList_iff]
    constructor
    · rintro ⟨t, ht⟩
      exact ⟨[], t, ht⟩
    · rintro ⟨s, t, hst⟩
      rcases List.append_eq_nil.mp hst with ⟨h1, h2⟩
      rcases List.append_eq_nil.mp h1 with ⟨h3, h4⟩
      exact ⟨t, by simp [h4, h2]⟩
  | cons b bs ih =>
    simp only [occursInList, Bool.or_eq_true, leadsList_iff, ih]
    constructor
    · rintro (⟨t, ht⟩ | ⟨s, t, hst⟩)
      · exact ⟨[], t, by simpa using ht⟩
      · exact ⟨b :: s, t, by simp [hst]⟩
    · rintro ⟨s, t, hst⟩
      cases s with
      | nil => exact Or.inl ⟨t, by simpa using hst⟩
      | cons c s =>
        simp only [List.cons_append] at hst
        injection hst with h1 h2
        exact Or.inr ⟨s, t, h2⟩

theorem pyIn_iff (needle hay : String) :
    pyIn needle hay = true ↔ ∃ s t, s ++ needle.data ++ t = hay.data :=
  occursInList_iff needle.data hay.data

/-! ### Helper lemmas: the collection loop -/

theorem collectResults_eq (q : String) (f : SearchField) (maxR : Nat) :
    ∀ (l : List KEVEntry) (acc : List SearchResult), acc.length < maxR →
      collectResults q f maxR l acc =
        acc ++ ((l.filter (entryMatches q f)).map projectEntry).take (maxR - acc.length) := by
  intro l
  induction l with
  | nil => intro acc _; simp [collectResults]
  | cons v rest ih =>
    intro acc hacc
    by_cases hm : entryMatches q f v = true
    · simp only [collectResults, hm, if_true]
      by_cases hfull : maxR ≤ (acc ++ [projectEntry v]).length
      · have hlen : (acc ++ [projectEntry v]).length = acc.length + 1 := by simp
        have h1 : maxR - acc.length = 1 := by omega
        rw [if_pos hfull]
        simp [List.filter_cons, hm, h1]
      · have h2 : (acc ++ [projectEntry v]).length < maxR := by omega
        rw [if_neg hfull, ih _ h2]
        have h3 : maxR - acc.length = (maxR - (acc ++ [projectEntry v]).length) + 1 := by
          simp only [List.length_append, List.length_cons, List.length_nil]
          omega
        simp [List.filter_cons, hm, h3, List.take_succ_cons]
    · simp only [collectResults, hm, if_false]
      rw [ih _ hacc]
      simp [List.filter_cons, hm]

/-! ### Helper lemmas: the descending stable sort -/

theorem strLtAux_asymm : ∀ (a b : List Char), strLtAux a b = true → strLtAux b a = false := by
  intro a
  induction a with
  | nil =>
    intro b h
    cases b with
    | nil => simp [strLtAux] at h
    | cons c cs => simp [strLtAux]
  | cons x xs ih =>
    intro b h
    cases b with
    | nil => simp [strLtAux] at h
    | cons y ys =>
      simp only [strLtAux] at h ⊢
      by_cases h1 : x.toNat < y.toNat
      · have h2 : ¬ y.toNat < x.toNat := by omega
        simp [h1, h2]
      · by_cases h2 : y.toNat < x.toNat
        · simp [h1, h2] at h
        · simp only [h1, h2, if_false] at h ⊢
          exact ih ys h

theorem strLtAux_neg_trans : ∀ (a b c : List Char), strLtAux a b = false →
    strLtAux b c = false → strLtAux a c = false := by
  intro a
  induction a with
  | nil =>
    intro b c h1 h2
    cases b with
    | nil =>
      cases c with
      | nil => simp [strLtAux]
      | cons z zs => simp [strLtAux] at h2
    | cons y ys => simp [strLtAux] at h1
  | cons x xs ih =>
    intro b c h1 h2
    cases b with
    | nil =>
      cases c with
      | nil => simp [strLtAux]
      | cons z zs => simp [strLtAux] at h2
    | cons y ys =>
      cases c with
      | nil => simp [strLtAux]
      | cons z zs =>
        simp only [strLtAux] at h1 h2 ⊢
        by_cases hxy : x.toNat < y.toNat
        · simp [hxy] at h1
        · by_cases hyz : y.toNat < z.toNat
          · simp [hyz] at h2
          · by_cases hyx : y.toNat < x.toNat
            · have hxz : ¬ x.toNat < z.toNat := by omega
              have hzx : z.toNat < x.toNat := by omega
              simp [hxz, hzx]
            · by_cases hzy : z.toNat < y.toNat
              · have hxz : ¬ x.toNat < z.toNat := by omega
                have hzx : z.toNat < x.toNat := by omega
                simp [hxz, hzx]
              · have hxz : ¬ x.toNat < z.toNat := by omega
                have hzx : ¬ z.toNat < x.toNat := by omega
                simp only [hxy, hyx, if_false] at h1
                simp only [hyz, hzy, if_false] at h2
                simp [hxz, hzx, ih ys zs h1 h2]

theorem pyStrLt_asymm {a b : String} (h : pyStrLt a b = true) : pyStrLt b a = false :=
  strLtAux_asymm _ _ h

theorem pyStrLt_neg_trans {a b c : String} (h1 : pyStrLt a b = false)
    (h2 : pyStrLt b c = false) : pyStrLt a c = false :=
  strLtAux_neg_trans _ _ _ h1 h2

theorem insertResult_perm (x : SearchResult) (l : List SearchResult) :
    List.Perm (insertResult x l) (x :: l) := by
  induction l with
  | nil => simp [insertResult]
  | cons y ys ih =>
    simp only [insertResult]
    by_cases hc : pyStrLt x.date_added y.date_added = true
    · simp only [hc, if_true]
      exact (List.Perm.cons y ih).trans (List.Perm.swap x y ys)
    · simp [hc]

theorem sortByDateDesc_perm (l : List SearchResult) :
    List.Perm (sortByDateDesc l) l := by
  induction l with
  | nil => simp [sortByDateDesc]
  | cons x xs ih =>
    exact (insertResult_perm x (sortByDateDesc xs)).trans (List.Perm.cons x ih)

theorem insertResult_pairwise (x : SearchResult) (l : List SearchResult)
    (hl : l.Pairwise (fun a b => pyStrLt a.date_added b.date_added = false)) :
    (insertResult x l).Pairwise (fun a b => pyStrLt a.date_added b.date_added = false) := by
  induction l with
  | nil => simp [insertResult]
  | cons y ys ih =>
    rcases List.pairwise_cons.mp hl with ⟨hy, hys⟩
    simp only [insertResult]
    by_cases hc : pyStrLt x.date_added y.date_added = true
    · simp only [hc, if_true]
      refine List.pairwise_cons.mpr ⟨?_, ih hys⟩
      intro z hz
      rcases List.mem_cons.mp ((insertResult_perm x ys).mem_iff.mp hz) with rfl | hzys
      · exact pyStrLt_asymm hc
      · exact hy z hzys
    · have hxy : pyStrLt x.date_added y.date_added = false := by
        exact Bool.eq_false_iff.mpr hc
      simp only [hc, if_false]
      refine List.pairwise_cons.mpr ⟨?_, hl⟩
      intro z hz
      rcases List.mem_cons.mp hz with rfl | hzys
      · exact hxy
      · exact pyStrLt_neg_trans hxy (hy z hzys)

theorem sortByDateDesc_pairwise (l : List SearchResult) :
    (sortByDateDesc l).Pairwise (fun a b => pyStrLt a.date_added b.date_added = false) := by
  induction l with
  | nil => simp [sortByDateDesc]
  | cons x xs ih => exact insertResult_pairwise x _ ih

/-! ### Sample data used by the witnesses -/

def demoEntry (c d : String) : KEVEntry :=
  ⟨some c, some "Vend", some "Prod", some "Name", d, some "Desc", none, none, none, none⟩

def demoCatalog : KEVCatalog :=
  ⟨[demoEntry "CVE-2021-0001" "2021-01-01", demoEntry "CVE-2023-0002" "2023-06-01",
    demoEntry "CVE-2022-0003" "2022-03-01"], 3⟩

def v31Entry : CvssMetricEntry := ⟨some ⟨some 9, some "CRITICAL", some "CVSS:3.1/AV:N"⟩, none⟩

def v31EntrySecond : CvssMetricEntry := ⟨some ⟨some 1, some "LOW", some "CVSS:3.1/AV:L"⟩, none⟩

def v2Entry : CvssMetricEntry := ⟨some ⟨some 5, none, some "AV:N/AC:L"⟩, some "MEDIUM"⟩

def v2EntrySecond : CvssMetricEntry := ⟨some ⟨some 2, none, some "AV:L/AC:H"⟩, some "LOW"⟩

/-- A raw record carrying both a v3.1 and a v2 scoring sequence, each with
two entries. -/
def rawBoth : RawCVE :=
  ⟨some "CVE-2024-0001", none, none,
    some ⟨some [v31Entry, v31EntrySecond], none, some [v2Entry, v2EntrySecond]⟩,
    none, none, none, none, none, none⟩

/-- A raw record with every optional sub-structure absent. -/
def rawBare : RawCVE :=
  ⟨some "CVE-2020-1111", some "2020-01-01", some "2020-01-02",
    none, none, none, none, none, none, none⟩

def cpeVuln : CpeMatch := ⟨some true, some "cpe:2.3:a:v:p:*", none, none, none⟩

def demoRef : Reference := ⟨some "https://example.com/a", some "nvd@nist.gov", none⟩

/-- A raw record with 15 vulnerable cpeMatch entries and 8 references. -/
def rawCaps : RawCVE :=
  ⟨some "CVE-2024-0003", none, none, none, none, none,
    some [⟨some [⟨some (List.replicate 15 cpeVuln)⟩]⟩],
    some (List.replicate 8 demoRef), none, none⟩

/-! ### Claims -/

/-- C1: for every catalog and valid field selector, search scans the
catalog in stored order and stops collecting at max_results matches
(clamped to 50) before any sorting: the returned list is exactly the
stable descending sort, by the date_added string, of the first
max_results matches in stored order — hence a permutation of that
truncated match list, arranged in descending lexicographic date order,
and not a top-K over the whole catalog. -/
theorem search_kev_truncate_then_sort (cat : KEVCatalog) (q : String)
    (f : SearchField) (maxR : Nat) (h : 1 ≤ maxR) :
    (search_kev q f maxR cat).results =
      sortByDateDesc
        (((cat.vulnerabilities.filter (entryMatches q f)).map projectEntry).take
          (if 50 < maxR then 50 else maxR)) ∧
    List.Perm (search_kev q f maxR cat).results
      (((cat.vulnerabilities.filter (entryMatches q f)).map projectEntry).take
        (if 50 < maxR then 50 else maxR)) ∧
    ((search_kev q f maxR cat).results).Pairwise
      (fun a b => pyStrLt a.date_added b.date_added = false) := by
  have hclamp : 0 < (if 50 < maxR then 50 else maxR) := by split <;> omega
  have hres : (search_kev q f maxR cat).results =
      sortByDateDesc
        (((cat.vulnerabilities.filter (entryMatches q f)).map projectEntry).take
          (if 50 < maxR then 50 else maxR)) := by
    show sortByDateDesc (collectResults q f _ cat.vulnerabilities []) = _
    rw [collectResults_eq q f _ cat.vulnerabilities [] (by simpa using hclamp)]
    simp
  refine ⟨hres, ?_, ?_⟩
  · rw [hres]
    exact sortByDateDesc_perm _
  · rw [hres]
    exact sortByDateDesc_pairwise _

/-- Witness for C1 at the catalog of the spec: three matching entries dated
2021-01-01, 2023-06-01, 2022-03-01 with max_results 2. -/
theorem search_kev_truncate_then_sort_witness :
    1 ≤ 2 ∧
    ((search_kev "cve" .all 2 demoCatalog).results =
      sortByDateDesc
        (((demoCatalog.vulnerabilities.filter (entryMatches "cve" .all)).map projectEntry).take
          (if 50 < 2 then 50 else 2)) ∧
    List.Perm (search_kev "cve" .all 2 demoCatalog).results
      (((demoCatalog.vulnerabilities.filter (entryMatches "cve" .all)).map projectEntry).take
        (if 50 < 2 then 50 else 2)) ∧
    ((search_kev "cve" .all 2 demoCatalog).results).Pairwise
      (fun a b => pyStrLt a.date_added b.date_added = false)) :=
  ⟨by decide, search_kev_truncate_then_sort demoCatalog "cve" .all 2 (by decide)⟩

/-- C2: the primary severity and score surfaced by the normalizer come from
the first available scheme in the strict order v3.1, then v3.0, then v2:
a present non-empty cvssMetricV31 alone supplies them; otherwise a present
non-empty cvssMetricV30; otherwise cvssMetricV2. -/
theorem primary_score_priority (r : RawCVE) :
    (∀ e rest, (r.metrics.getD emptyMetrics).cvssMetricV31 = some (e :: rest) →
      (normalizeCVE r).primary_severity =
        some ((e.cvssData.getD emptyCvssData).baseSeverity) ∧
      (normalizeCVE r).primary_score = some ((e.cvssData.getD emptyCvssData).baseScore)) ∧
    (∀ e rest, ((r.metrics.getD emptyMetrics).cvssMetricV31 = none ∨
        (r.metrics.getD emptyMetrics).cvssMetricV31 = some []) →
      (r.metrics.getD emptyMetrics).cvssMetricV30 = some (e :: rest) →
      (normalizeCVE r).primary_severity =
        some ((e.cvssData.getD emptyCvssData).baseSeverity) ∧
      (normalizeCVE r).primary_score = some ((e.cvssData.getD emptyCvssData).baseScore)) ∧
    (∀ e rest, ((r.metrics.getD emptyMetrics).cvssMetricV31 = none ∨
        (r.metrics.getD emptyMetrics).cvssMetricV31 = some []) →
      ((r.metrics.getD emptyMetrics).cvssMetricV30 = none ∨
        (r.metrics.getD emptyMetrics).cvssMetricV30 = some []) →
      (r.metrics.getD emptyMetrics).cvssMetricV2 = some (e :: rest) →
      (normalizeCVE r).primary_severity = some e.baseSeverity ∧
      (normalizeCVE r).primary_score = some ((e.cvssData.getD emptyCvssData).baseScore)) := by
  refine ⟨?_, ?_, ?_⟩
  · intro e rest h31
    constructor <;> simp [normalizeCVE, h31, extractV3x]
  · intro e rest h31 h30
    rcases h31 with h31 | h31 <;>
      constructor <;> simp [normalizeCVE, h31, h30, extractV3x]
  · intro e rest h31 h30 h2
    rcases h31 with h31 | h31 <;> rcases h30 with h30 | h30 <;>
      constructor <;> simp [normalizeCVE, h31, h30, h2, extractV3x, extractV2]

/-- Witness for C2: a record carrying both v3.1 and v2 sequences surfaces
the primary values from the first v3.1 entry only. -/
theorem primary_score_priority_witness :
    (rawBoth.metrics.getD emptyMetrics).cvssMetricV31 = some (v31Entry :: [v31EntrySecond]) ∧
    (normalizeCVE rawBoth).primary_severity = some (some "CRITICAL") ∧
    (normalizeCVE rawBoth).primary_score = some (some 9) := by
  have h := (primary_score_priority rawBoth).1 v31Entry [v31EntrySecond] rfl
  exact ⟨rfl, h.1.trans (by decide), h.2.trans (by decide)⟩

/-- C3: each scoring key present with a non-empty sequence is extracted
from its first entry only; v3.1 and v3.0 read their severity from
baseSeverity inside the nested cvssData block, while v2 reads it from
baseSeverity at the entry level, outside cvssData. -/
theorem scheme_extraction_first_entry (r : RawCVE) :
    (∀ e rest, (r.metrics.getD emptyMetrics).cvssMetricV31 = some (e :: rest) →
      (normalizeCVE r).cvss_v31 =
        some ⟨(e.cvssData.getD emptyCvssData).baseScore,
          (e.cvssData.getD emptyCvssData).baseSeverity,
          (e.cvssData.getD emptyCvssData).vectorString⟩) ∧
    (∀ e rest, (r.metrics.getD emptyMetrics).cvssMetricV30 = some (e :: rest) →
      (normalizeCVE r).cvss_v30 =
        some ⟨(e.cvssData.getD emptyCvssData).baseScore,
          (e.cvssData.getD emptyCvssData).baseSeverity,
          (e.cvssData.getD emptyCvssData).vectorString⟩) ∧
    (∀ e rest, (r.metrics.getD emptyMetrics).cvssMetricV2 = some (e :: rest) →
      (normalizeCVE r).cvss_v2 =
        some ⟨(e.cvssData.getD emptyCvssData).baseScore,
          e.baseSeverity,
          (e.cvssData.getD emptyCvssData).vectorString⟩) := by
  refine ⟨?_, ?_, ?_⟩
  · intro e rest h31
    simp [normalizeCVE, h31, extractV3x]
  · intro e rest h30
    simp [normalizeCVE, h30, extractV3x]
  · intro e rest h2
    simp [normalizeCVE, h2, extractV2]

/-- Witness for C3: two-entry v3.1 and v2 sequences are read from their
first entries, with the v2 severity taken at the entry level. -/
theorem scheme_extraction_first_entry_witness :
    (rawBoth.metrics.getD emptyMetrics).cvssMetricV31 = some (v31Entry :: [v31EntrySecond]) ∧
    (rawBoth.metrics.getD emptyMetrics).cvssMetricV2 = some (v2Entry :: [v2EntrySecond]) ∧
    (normalizeCVE rawBoth).cvss_v31 = some ⟨some 9, some "CRITICAL", some "CVSS:3.1/AV:N"⟩ ∧
    (normalizeCVE rawBoth).cvss_v2 = some ⟨some 5, some "MEDIUM", some "AV:N/AC:L"⟩ := by
  have h1 := (scheme_extraction_first_entry rawBoth).1 v31Entry [v31EntrySecond] rfl
  have h2 := (scheme_extraction_first_entry rawBoth).2.2 v2Entry [v2EntrySecond] rfl
  exact ⟨rfl, rfl, h1.trans (by decide), h2.trans (by decide)⟩

/-- C4 (failing run of the code): two callers arriving before the first
fetch completes, interleaved at the await inside the download, each observe
the unset cache and each issue an upstream fetch, so two fetches are issued
where the claim requires exactly one. -/
theorem kev_init_duplicate_fetches :
    (runSchedule emptyKev [0, 1, 0, 1] (initState 2)).fetchesIssued = 2 := by decide

/-- C5: for every raw record, each absent optional sub-structure yields its
empty or omitted output field independently of the others — absent metrics
give empty scores and no primary fields, absent weaknesses an empty CWE
list, absent descriptions an empty description, absent configurations an
empty CPE list, absent references an empty references list — and
normalization, being a total function, never fails. -/
theorem missing_fields_tolerated (r : RawCVE) :
    (r.metrics = none →
      (normalizeCVE r).cvss_v31 = none ∧ (normalizeCVE r).cvss_v30 = none ∧
      (normalizeCVE r).cvss_v2 = none ∧ (normalizeCVE r).primary_severity = none ∧
      (normalizeCVE r).primary_score = none) ∧
    (r.weaknesses = none → (normalizeCVE r).cwe = []) ∧
    (r.descriptions = none → (normalizeCVE r).description = "") ∧
    (r.configurations = none → (normalizeCVE r).cpe_configurations = []) ∧
    (r.references = none → (normalizeCVE r).references = []) := by
  refine ⟨?_, ?_, ?_, ?_, ?_⟩
  · intro hm
    refine ⟨?_, ?_, ?_, ?_, ?_⟩ <;>
      simp [normalizeCVE, hm, emptyMetrics, extractV3x, extractV2]
  · intro hw
    simp [normalizeCVE, hw, extractCwe]
  · intro hd
    simp [normalizeCVE, hd, extractDescription]
  · intro hc
    simp [normalizeCVE, hc, extractCpes]
  · intro hr
    simp [normalizeCVE, hr, extractRefs]

/-- Witness for C5: a mixed record (metrics present, the other four
sub-structures absent) gets empty cwe, description, cpe list and
references while its scores are populated, and a record with metrics
absent gets empty scores and no primary fields. -/
theorem missing_fields_tolerated_witness :
    rawBoth.weaknesses = none ∧ rawBoth.descriptions = none ∧
    rawBoth.configurations = none ∧ rawBoth.references = none ∧
    rawBoth.metrics ≠ none ∧
    (normalizeCVE rawBoth).cwe = [] ∧
    (normalizeCVE rawBoth).description = "" ∧
    (normalizeCVE rawBoth).cpe_configurations = [] ∧
    (normalizeCVE rawBoth).references = [] ∧
    rawBare.metrics = none ∧
    (normalizeCVE rawBare).cvss_v31 = none ∧
    (normalizeCVE rawBare).primary_severity = none := by
  have hb := missing_fields_tolerated rawBoth
  have ha := missing_fields_tolerated rawBare
  exact ⟨rfl, rfl, rfl, rfl, by decide, hb.2.1 rfl, hb.2.2.1 rfl, hb.2.2.2.1 rfl,
    hb.2.2.2.2 rfl, rfl, (ha.1 rfl).1, (ha.1 rfl).2.2.2.1⟩

/-- C6: a failed catalog fetch — any non-200 status or a transport
exception — still produces a ready cache holding the empty catalog, and
every subsequent search over it returns no matches instead of an error. -/
theorem download_failure_degrades :
    (∀ (s : Nat) (body : KEVCatalog), s ≠ 200 →
      download_kev_data (.response s body) = emptyKev ∧
      ∀ (q : String) (f : SearchField) (m : Nat),
        (search_kev q f m (download_kev_data (.response s body))).results = [] ∧
        (search_kev q f m (download_kev_data (.response s body))).total_results = 0) ∧
    (download_kev_data .failure = emptyKev ∧
      ∀ (q : String) (f : SearchField) (m : Nat),
        (search_kev q f m (download_kev_data .failure)).results = [] ∧
        (search_kev q f m (download_kev_data .failure)).total_results = 0) := by
  constructor
  · intro s body hs
    have hd : download_kev_data (.response s body) = emptyKev := by
      simp [download_kev_data, hs]
    refine ⟨hd, ?_⟩
    intro q f m
    rw [hd]
    exact ⟨rfl, rfl⟩
  · refine ⟨rfl, ?_⟩
    intro q f m
    exact ⟨rfl, rfl⟩

/-- Witness for C6: an HTTP 503 whose body would even carry entries still
degrades to the empty catalog and empty search results. -/
theorem download_failure_degrades_witness :
    (503 : Nat) ≠ 200 ∧
    download_kev_data (.response 503 demoCatalog) = emptyKev ∧
    (search_kev "log4j" .all 10 (download_kev_data (.response 503 demoCatalog))).results = [] ∧
    (search_kev "log4j" .all 10 (download_kev_data (.response 503 demoCatalog))).total_results = 0 := by
  have h := download_failure_degrades.1 503 demoCatalog (by decide)
  exact ⟨by decide, h.1, (h.2 "log4j" .all 10).1, (h.2 "log4j" .all 10).2⟩

/-- C7: for field cve_id an entry matches exactly when the lowercased query
occurs as a contiguous substring of the lowercased stored CVE id, or the
lowercased stored CVE id occurs as a contiguous substring of the lowercased
query. -/
theorem cve_id_match_bidirectional (q : String) (v : KEVEntry) :
    entryMatches q .cve_id v = true ↔
      ((∃ s t, s ++ (pyLower q).data ++ t = (pyLower (v.cveID.getD "")).data) ∨
       (∃ s t, s ++ (pyLower (v.cveID.getD "")).data ++ t = (pyLower q).data)) := by
  simp only [entryMatches, Bool.or_eq_true, pyIn]
  rw [occursInList_iff, occursInList_iff]

/-- C8: for field all an entry matches exactly when the lowercased query
occurs as a contiguous substring of the lowercased space-joined
concatenation of cveID, vendorProject, product, vulnerabilityName,
shortDescription and notes, each missing field read as the empty string. -/
theorem all_field_match (q : String) (v : KEVEntry) :
    entryMatches q .all v = true ↔
      ∃ s t, s ++ (pyLower q).data ++ t =
        (pyLower (joinSpace [v.cveID.getD "", v.vendorProject.getD "", v.product.getD "",
          v.vulnerabilityName.getD "", v.shortDescription.getD "", v.notes.getD ""])).data := by
  simp only [entryMatches, searchableText, pyIn]
  rw [occursInList_iff]

/-- C9: the normalized output keeps at most the first 10 vulnerable CPE
matches and the first 5 references in encounter order; counts of 15 and 8
yield exactly 10 and 5; a reference with absent tags gets the empty list. -/
theorem caps_enforced (r : RawCVE) :
    (normalizeCVE r).cpe_configurations =
      (extractCpes (r.configurations.getD [])).take 10 ∧
    (normalizeCVE r).references = (extractRefs (r.references.getD [])).take 5 ∧
    ((extractCpes (r.configurations.getD [])).length = 15 →
      (normalizeCVE r).cpe_configurations.length = 10) ∧
    ((r.references.getD []).length = 8 → (normalizeCVE r).references.length = 5) ∧
    (∀ (ref : Reference), ref.tags = none →
      projectReference ref = ⟨ref.url, ref.source, []⟩) := by
  refine ⟨rfl, rfl, ?_, ?_, ?_⟩
  · intro h
    simp [normalizeCVE, List.length_take, h]
  · intro h
    simp [normalizeCVE, extractRefs, List.length_take, h]
  · intro ref h
    simp [projectReference, h]

/-- Witness for C9 at a record with 15 vulnerable CPE matches and 8
references, one of which has no tags. -/
theorem caps_enforced_witness :
    (extractCpes (rawCaps.configurations.getD [])).length = 15 ∧
    (rawCaps.references.getD []).length = 8 ∧
    (normalizeCVE rawCaps).cpe_configurations.length = 10 ∧
    (normalizeCVE rawCaps).references.length = 5 ∧
    demoRef.tags = none ∧
    projectReference demoRef = ⟨demoRef.url, demoRef.source, []⟩ := by
  have h := caps_enforced rawCaps
  exact ⟨by decide, by decide, h.2.2.1 (by decide), h.2.2.2.1 (by decide),
    rfl, h.2.2.2.2 demoRef rfl⟩

/-- C10: the three sample spellings normalize to the identical canonical
identifier, and any input whose normalized identifier fails the anchored
CVE-, 4 digits, dash, 4-or-more digits pattern is answered with the
structured error envelope instead of any lookup, with no fault raised. -/
theorem cve_id_gate_spec :
    normalizeCveId "2023-1234" = "CVE-2023-1234" ∧
    normalizeCveId "cve-2023-1234" = "CVE-2023-1234" ∧
    normalizeCveId " CVE-2023-1234 " = "CVE-2023-1234" ∧
    ∀ (s : String), validCveId (normalizeCveId s) = false →
      cveIdGate s = .error ("Invalid CVE format: " ++ normalizeCveId s ++
        ". Expected format: CVE-YYYY-NNNN") := by
  refine ⟨by decide, by decide, by decide, ?_⟩
  intro s hs
  simp [cveIdGate, hs]

/-- Witness for C10 at a malformed identifier. -/
theorem cve_id_gate_spec_witness :
    validCveId (normalizeCveId "garbage") = false ∧
    cveIdGate "garbage" = .error ("Invalid CVE format: " ++ normalizeCveId "garbage" ++
      ". Expected format: CVE-YYYY-NNNN") :=
  ⟨by decide, cve_id_gate_spec.2.2.2 "garbage" (by decide)⟩

end Risky
